import Mathlib

/-!
Verification development for `enhanced_sumo_ev3.py`, an ev3dev2-based sumo
robot controller.  The control core (PID controller, edge monitor, drive
mixer, and the per-tick body of `main_loop`) is shallowly embedded below.

Modelling conventions:
* Python floats are modelled as exact rationals (`ℚ`).
* A distance read (`us_distance_cm`) that fails returns `None` in the source;
  distances are therefore `Option ℚ`.
* Python truthiness on such a value (`if us_l and us_r:`) is `truthy`:
  `None` and `0.0` are falsy, every other float is truthy.
* Hardware calls (`tank.on`, `tank.on_for_seconds`, `tank.stop`, `print`,
  `sleep`, the CSV write) are external collaborators; the embedding records
  them as an `Event` trace in program order.
* A Python exception escaping the tick body is modelled by the `error`
  field of `TickOut`: `some e` means the tick raised `e` after producing
  the recorded events, with the loop variables holding the recorded values.
  Two names referenced by `main_loop` are unbound in the module
  (the imports are only `ev3dev2.*`, `sleep`, `time`, `csv`, `os`):
  `has_bumper` (line 210) and `datetime` (line 224); evaluating either
  raises a `NameError`.
-/

namespace SumoEV3

/-! ## Configuration constants (lines 22-56 of the source) -/

def BUMPER_PORT : Option Unit := none

def BASE_SPEED_SEARCH : ℚ := 20
def BASE_SPEED_APPROACH : ℚ := 30
def BASE_SPEED_PUSH : ℚ := 85

def REFLECT_WHITE_THRESHOLD : ℚ := 40

def US_DETECT_CM : ℚ := 25
def US_PUSH_CM : ℚ := 7

def KP : ℚ := 6/5
def KI : ℚ := 1/100
def KD : ℚ := 2/25
def PID_LIMIT : ℚ := 40

def PUSH_MAX_TIME : ℚ := 2
def EDGE_BACKUP_TIME : ℚ := 1/2
def EDGE_ROTATE_TIME : ℚ := 3/5

/-! ## Python truthiness for optional floats -/

/-- Truthiness of a Python value that is either `None` or a float:
`None` and `0.0` are falsy.  Used wherever the source writes
`if us_l and us_r:` etc. -/
def truthy : Option ℚ → Bool
  | none => false
  | some x => x != 0

/-! ## PID controller (source lines 104-122) -/

/-- PID state: gains `kp ki kd`, optional output `limit`, and the mutable
fields `_prev`, `_int`, `_last` of the source (here `prev`, `intg`, `last`). -/
structure PID where
  kp : ℚ
  ki : ℚ
  kd : ℚ
  limit : Option ℚ
  prev : ℚ
  intg : ℚ
  last : Option ℚ
  deriving Repr, DecidableEq

/-- `PID.__init__` (lines 105-108): `_prev = 0.0; _int = 0.0; _last = None`. -/
def PID.init (kp ki kd : ℚ) (limit : Option ℚ) : PID :=
  { kp := kp, ki := ki, kd := kd, limit := limit, prev := 0, intg := 0, last := none }

/-- `PID.reset` (lines 109-110). -/
def PID.reset (p : PID) : PID :=
  { p with prev := 0, intg := 0, last := none }

/-- The time step of line 113:
`dt = 0.01 if self._last is None else max(0.001, now - self._last)`. -/
def PID.dtOf (p : PID) (now : ℚ) : ℚ :=
  match p.last with
  | none => 1/100
  | some l => max (1/1000) (now - l)

/-- Output clamping of lines 119-121. -/
def clampOut (out : ℚ) (limit : Option ℚ) : ℚ :=
  match limit with
  | none => out
  | some lim =>
      let o := if out > lim then lim else out
      if o < -lim then -lim else o

/-- `PID.compute` (lines 111-122).  The wall-clock `time()` read is passed in
as `now`.  Returns the output together with the updated controller state. -/
def PID.compute (p : PID) (error : ℚ) (now : ℚ) : ℚ × PID :=
  let dt := p.dtOf now
  let intg := p.intg + error * dt
  let derivative := if dt > 0 then (error - p.prev) / dt else 0
  let out := p.kp * error + p.ki * intg + p.kd * derivative
  (clampOut out p.limit, { p with prev := error, intg := intg, last := some now })

/-- The module-level `pid = PID(KP,KI,KD,PID_LIMIT)` (line 124). -/
def pid0 : PID := PID.init KP KI KD (some PID_LIMIT)

/-! ## Robot states, events, environment -/

/-- The five state constants of lines 127-131. -/
inductive RState where
  | SEARCH
  | LOCKON
  | APPROACH
  | PUSH
  | RECOVER
  deriving Repr, DecidableEq

/-- Observable actions a tick performs, in program order.  `tankOn` is
`tank.on(l, r)`, `tankOnForSeconds` is `tank.on_for_seconds(l, r, sec,
block=True)`, `logWrite` is a successful `writer.writerow(row)`. -/
inductive Event where
  | print (s : String)
  | tankOn (l r : ℚ)
  | tankOnForSeconds (l r sec : ℚ)
  | tankStop
  | sleepFor (sec : ℚ)
  | logWrite (row : List String)
  deriving Repr, DecidableEq

/-- A Python exception escaping the tick body. -/
inductive PyErr where
  | nameError (n : String)
  deriving Repr, DecidableEq

/-- The per-tick sensor environment: one value per hardware read the tick
makes.  `reflL`/`reflR` are `read_reflectance(cs_left/cs_right)`,
`usL`/`usR` are `us_distance_cm(us_left/us_right)` (`none` = failed read),
`now` is `time()`. -/
structure Env where
  reflL : ℚ
  reflR : ℚ
  usL : Option ℚ
  usR : Option ℚ
  now : ℚ
  deriving Repr, DecidableEq

/-- Mutable loop variables of `main_loop`: `state`, the global `pid`, and
`push_start`. -/
structure LoopState where
  state : RState
  pid : PID
  push_start : Option ℚ
  deriving Repr, DecidableEq

/-! ## Motor helpers (source lines 133-149) -/

/-- `stop()` (lines 133-134). -/
def stopEvents : List Event := [Event.tankStop]

/-- `drive(base, left_correction)` (lines 136-141): the pure mixing part,
returning the clamped `(left, right)` pair the source returns. -/
def drive (base left_correction : ℚ) : ℚ × ℚ :=
  let left := base - left_correction
  let right := base + left_correction
  (max (-100) (min 100 left), max (-100) (min 100 right))

/-- `reverse(sec, power)` (lines 143-145) as its event trace. -/
def reverse (sec power : ℚ) : List Event :=
  [Event.tankOnForSeconds power power sec, Event.tankStop]

/-- `rotate(left_speed, right_speed, seconds)` (lines 147-149) as its event
trace. -/
def rotate (left_speed right_speed seconds : ℚ) : List Event :=
  [Event.tankOnForSeconds left_speed right_speed seconds, Event.tankStop]

/-! ## Edge monitor and center distance -/

/-- `edge_detected()` (lines 92-95), reading the two reflectance values of
the current environment. -/
def edge_detected (env : Env) : Bool :=
  (env.reflL ≥ REFLECT_WHITE_THRESHOLD) || (env.reflR ≥ REFLECT_WHITE_THRESHOLD)

/-- Lines 174-177: `us_center = None; if us_l and us_r: us_center =
(us_l + us_r) / 2.0`.  Note the Python truthiness test. -/
def usCenterOf (us_l us_r : Option ℚ) : Option ℚ :=
  if truthy us_l && truthy us_r then
    some ((us_l.getD 0 + us_r.getD 0) / 2)
  else
    none

/-- The full event trace of the edge-override branch (lines 158-170):
print, `stop()`, `reverse()` with its default arguments
`sec=-EDGE_BACKUP_TIME, power=-30`, then the rotation chosen by comparing
the re-read reflectance values (lines 163-167). -/
def edgeRecoveryEvents (env : Env) : List Event :=
  [Event.print "EDGE! recovering...", Event.tankStop]
    ++ reverse (-EDGE_BACKUP_TIME) (-30)
    ++ (if env.reflL > env.reflR then
          rotate (-30) 30 EDGE_ROTATE_TIME
        else
          rotate 30 (-30) EDGE_ROTATE_TIME)

/-! ## The per-tick body of `main_loop` (source lines 156-226) -/

/-- How the state-dispatch section of the tick ends: reaching the logging
section (line 223), executing `continue`, or raising an exception. -/
inductive StepExit where
  | fallThrough
  | continued
  | raised (e : PyErr)
  deriving Repr, DecidableEq

/-- Result of the state-dispatch section: updated loop variables, events so
far, and how the section ended. -/
structure StepOut where
  st : LoopState
  events : List Event
  exit : StepExit
  deriving Repr, DecidableEq

/-- Lines 172-221: the non-edge part of the tick body, from the ultrasonic
reads through the state dispatch.  In `STATE_APPROACH`, when the push
trigger `(us_center and us_center <= US_PUSH_CM)` is falsy, Python goes on
to evaluate `has_bumper`, a name never bound in the module, raising a
`NameError` (line 210). -/
def stateStep (s : LoopState) (env : Env) : StepOut :=
  let us_l := env.usL
  let us_r := env.usR
  let us_center := usCenterOf us_l us_r
  match s.state with
  | .SEARCH =>
      -- lines 182-186; the detection test uses truthiness, then continue
      if (truthy us_l && us_l.getD 0 < US_DETECT_CM)
          || (truthy us_r && us_r.getD 0 < US_DETECT_CM) then
        { st := { state := .LOCKON, pid := s.pid.reset, push_start := s.push_start },
          events := [Event.tankOn BASE_SPEED_SEARCH (-BASE_SPEED_SEARCH),
                     Event.tankStop, Event.sleepFor (1/20)],
          exit := .continued }
      else
        { st := s,
          events := [Event.tankOn BASE_SPEED_SEARCH (-BASE_SPEED_SEARCH)],
          exit := .fallThrough }
  | .LOCKON =>
      -- lines 188-201
      if truthy us_l && truthy us_r then
        let l := us_l.getD 0
        let r := us_r.getD 0
        if |l - r| < 2 then
          { st := { s with state := .APPROACH }, events := [], exit := .fallThrough }
        else if l < r then
          { st := s, events := [Event.tankOn 15 (-15)], exit := .fallThrough }
        else
          { st := s, events := [Event.tankOn (-15) 15], exit := .fallThrough }
      else
        -- forward nudge, then back to SEARCH (no pid.reset here)
        { st := { s with state := .SEARCH },
          events := [Event.tankOnForSeconds 15 15 (1/4)],
          exit := .fallThrough }
  | .APPROACH =>
      -- lines 203-214
      if truthy us_l && truthy us_r then
        let l := us_l.getD 0
        let r := us_r.getD 0
        let error := (r - l) / max 1 (r + l)
        let res := s.pid.compute error env.now
        let cmds := drive BASE_SPEED_APPROACH res.1
        if truthy us_center && us_center.getD 0 ≤ US_PUSH_CM then
          { st := { state := .PUSH, pid := res.2, push_start := some env.now },
            events := [Event.tankOn cmds.1 cmds.2, Event.print "Entering PUSH"],
            exit := .fallThrough }
        else
          -- `or` does not short-circuit: `has_bumper` is evaluated and unbound
          { st := { state := .APPROACH, pid := res.2, push_start := s.push_start },
            events := [Event.tankOn cmds.1 cmds.2],
            exit := .raised (.nameError "has_bumper") }
      else
        { st := { state := .SEARCH, pid := s.pid.reset, push_start := s.push_start },
          events := [Event.tankStop],
          exit := .fallThrough }
  | .PUSH =>
      -- lines 216-221; push_start is tested with truthiness and not cleared
      if truthy s.push_start && env.now - s.push_start.getD 0 > PUSH_MAX_TIME then
        { st := { state := .SEARCH, pid := s.pid.reset, push_start := s.push_start },
          events := [Event.tankOn BASE_SPEED_PUSH BASE_SPEED_PUSH,
                     Event.print "Push timeout - back off", Event.tankStop]
                    ++ reverse (4/10) (-40)
                    ++ rotate 30 (-30) EDGE_ROTATE_TIME,
          exit := .fallThrough }
      else
        { st := s,
          events := [Event.tankOn BASE_SPEED_PUSH BASE_SPEED_PUSH],
          exit := .fallThrough }
  | .RECOVER =>
      -- no dispatch arm matches STATE_RECOVER; fall straight through
      { st := s, events := [], exit := .fallThrough }

/-- Result of one tick: final loop variables, event trace, and the exception
escaping the tick body, if any. -/
structure TickOut where
  st : LoopState
  events : List Event
  error : Option PyErr
  deriving Repr, DecidableEq

/-- The exception escaping the tick body for each way the state dispatch can
end.  A tick that falls through to line 224 evaluates `datetime.utcnow()`,
but `datetime` is never imported (the module imports only `ev3dev2.*`,
`sleep`, `time`, `csv`, `os`), so constructing the timestamp raises
`NameError` before `log_row` is called and before the `sleep(0.02)`. -/
def exitError : StepExit → Option PyErr
  | .continued => none
  | .raised e => some e
  | .fallThrough => some (.nameError "datetime")

/-- One iteration of the `while True` loop of `main_loop` (lines 156-226).
The edge override (lines 158-170) runs first and ends with `continue`;
otherwise the state dispatch runs and the tick ends as `exitError`
describes. -/
def tick (s : LoopState) (env : Env) : TickOut :=
  if edge_detected env then
    { st := { state := .SEARCH, pid := s.pid.reset, push_start := s.push_start },
      events := edgeRecoveryEvents env,
      error := none }
  else
    let o := stateStep s env
    { st := o.st, events := o.events, error := exitError o.exit }

/-- `log_row(row)` (lines 72-84): the file write is wrapped in
`try/except Exception`, so a write failure only produces a print.  The
outcome of the file operations is an input (`writeFails`); the function has
no error channel, mirroring that no exception escapes it. -/
def log_row (writeFails : Option String) (row : List String) : List Event :=
  match writeFails with
  | none => [Event.logWrite row]
  | some m => [Event.print ("Logging failed: " ++ m)]

/-- Is an event a successful CSV row write? -/
def Event.isLogWrite : Event → Bool
  | .logWrite _ => true
  | _ => false

/-! ## Claim theorems -/

/-- C1: whenever the edge condition holds (either reflectance at/above the
white threshold), the tick runs the scripted recovery maneuver, resets the
PID, ends in state SEARCH with no exception, and never ends in PUSH — for
every loop state, so in particular when the APPROACH push trigger would
also be true. -/
theorem C1_edge_override_always_search (s : LoopState) (env : Env)
    (h : edge_detected env = true) :
    tick s env =
      { st := { state := .SEARCH, pid := s.pid.reset, push_start := s.push_start },
        events := edgeRecoveryEvents env,
        error := none } ∧
    (tick s env).st.state ≠ .PUSH := by
  refine ⟨by simp [tick, h], ?_⟩
  simp [tick, h]

/-- Witness for C1: state APPROACH with distances 5 cm/5 cm (so the push
trigger, center 5 ≤ 7, holds) and left reflectance 50 ≥ 40. -/
theorem C1_edge_override_always_search_witness :
    edge_detected ⟨50, 10, some 5, some 5, 0⟩ = true ∧
    (tick ⟨.APPROACH, pid0, none⟩ ⟨50, 10, some 5, some 5, 0⟩ =
      { st := { state := .SEARCH, pid := pid0.reset, push_start := none },
        events := edgeRecoveryEvents ⟨50, 10, some 5, some 5, 0⟩,
        error := none } ∧
     (tick ⟨.APPROACH, pid0, none⟩ ⟨50, 10, some 5, some 5, 0⟩).st.state ≠ .PUSH) := by
  have hedge : edge_detected ⟨50, 10, some 5, some 5, 0⟩ = true := by
    norm_num [edge_detected, REFLECT_WHITE_THRESHOLD]
  exact ⟨hedge, C1_edge_override_always_search ⟨.APPROACH, pid0, none⟩ _ hedge⟩

/-- C2: with no contact sensor configured (`BUMPER_PORT = None`), an
APPROACH tick with both distances present and center distance above the
push threshold evaluates the unbound name `has_bumper` in the push-trigger
condition and raises a `NameError`; only when the distance disjunct already
holds does the `or` short-circuit and the machine reach PUSH. -/
theorem C2_push_trigger_name_error :
    BUMPER_PORT = none ∧
    (tick ⟨.APPROACH, pid0, none⟩ ⟨5, 5, some 10, some 10, 0⟩).error
      = some (.nameError "has_bumper") ∧
    (tick ⟨.APPROACH, pid0, none⟩ ⟨5, 5, some 4, some 4, 0⟩).st.state = .PUSH := by
  refine ⟨rfl, ?_, ?_⟩
  · norm_num [tick, stateStep, exitError, edge_detected, REFLECT_WHITE_THRESHOLD,
      truthy, usCenterOf, US_PUSH_CM]
  · norm_num [tick, stateStep, exitError, edge_detected, REFLECT_WHITE_THRESHOLD,
      truthy, usCenterOf, US_PUSH_CM]

/-- C3: the code treats a 0 cm distance reading as absent, not present.
With readings 0 and 10 the derived center distance is `none` instead of
their average 5; a 0 cm reading does not trigger the SEARCH detection test;
and the LOCKON and APPROACH both-present tests treat the pair (0, 10) as
not both present, falling back to SEARCH. -/
theorem C3_zero_reading_treated_absent :
    usCenterOf (some 0) (some 10) = none ∧
    (tick ⟨.SEARCH, pid0, none⟩ ⟨5, 5, some 0, none, 0⟩).st.state = .SEARCH ∧
    (tick ⟨.LOCKON, pid0, none⟩ ⟨5, 5, some 0, some 10, 0⟩).st.state = .SEARCH ∧
    (tick ⟨.APPROACH, pid0, none⟩ ⟨5, 5, some 0, some 10, 0⟩).st.state = .SEARCH := by
  refine ⟨by norm_num [usCenterOf, truthy], ?_, ?_, ?_⟩ <;>
    norm_num [tick, stateStep, exitError, edge_detected, REFLECT_WHITE_THRESHOLD,
      truthy, usCenterOf, US_DETECT_CM]

/-- C5: the per-tick log record is not produced safely.  The timestamp
expression of line 224 evaluates the unbound name `datetime`, the resulting
`NameError` escapes the tick (the `error` field is not `none`), and the
control loop halts — while `log_row` itself does swallow a file-write
failure into a print.  Shown on a quiet SEARCH tick. -/
theorem C5_timestamp_failure_escapes_tick :
    (tick ⟨.SEARCH, pid0, none⟩ ⟨5, 5, none, none, 0⟩).error
      = some (.nameError "datetime") ∧
    (tick ⟨.SEARCH, pid0, none⟩ ⟨5, 5, none, none, 0⟩).error ≠ none ∧
    log_row (some "disk full") ["row"] = [Event.print "Logging failed: disk full"] := by
  have h1 : (tick ⟨.SEARCH, pid0, none⟩ ⟨5, 5, none, none, 0⟩).error
      = some (.nameError "datetime") := by
    norm_num [tick, stateStep, exitError, edge_detected, REFLECT_WHITE_THRESHOLD,
      truthy, US_DETECT_CM]
  exact ⟨h1, by rw [h1]; simp, rfl⟩

/-- C4 counterexample: for reflectance (50, 10) — left at/above the
threshold, left higher — the recovery trace rotates with the LEFT wheel
backward (-30) and the RIGHT wheel forward (+30); the rotation the claim
asserts (left wheel forward +30, right wheel backward -30) does not occur
anywhere in the trace. -/
theorem C4_counterexample :
    (tick ⟨.SEARCH, pid0, none⟩ ⟨50, 10, none, none, 0⟩).events =
      [Event.print "EDGE! recovering...", Event.tankStop,
       Event.tankOnForSeconds (-30) (-30) (-(1/2)), Event.tankStop,
       Event.tankOnForSeconds (-30) 30 (3/5), Event.tankStop] ∧
    Event.tankOnForSeconds 30 (-30) (3/5)
      ∉ (tick ⟨.SEARCH, pid0, none⟩ ⟨50, 10, none, none, 0⟩).events ∧
    (tick ⟨.SEARCH, pid0, none⟩ ⟨50, 10, none, none, 0⟩).st.state = .SEARCH := by
  have hev : (tick ⟨.SEARCH, pid0, none⟩ ⟨50, 10, none, none, 0⟩).events =
      [Event.print "EDGE! recovering...", Event.tankStop,
       Event.tankOnForSeconds (-30) (-30) (-(1/2)), Event.tankStop,
       Event.tankOnForSeconds (-30) 30 (3/5), Event.tankStop] := by
    norm_num [tick, edge_detected, REFLECT_WHITE_THRESHOLD, edgeRecoveryEvents,
      reverse, rotate, EDGE_BACKUP_TIME, EDGE_ROTATE_TIME]
  refine ⟨hev, ?_, ?_⟩
  · rw [hev]
    intro hmem
    simp only [List.mem_cons, List.not_mem_nil, or_false] at hmem
    rcases hmem with h|h|h|h|h|h
    · exact Event.noConfusion h
    · exact Event.noConfusion h
    · injection h with h1 h2 h3; norm_num at h1
    · exact Event.noConfusion h
    · injection h with h1 h2 h3; norm_num at h1
    · exact Event.noConfusion h
  · norm_num [tick, edge_detected, REFLECT_WHITE_THRESHOLD]

/-- C4 amended: during an edge recovery with the left reflectance strictly
higher than the right, the rotation drives the left wheel at -30 (backward)
and the right wheel at +30 (forward), and the final state is SEARCH. -/
theorem C4_amended_rotation_left_backward (s : LoopState) (env : Env)
    (hedge : edge_detected env = true) (hlr : env.reflL > env.reflR) :
    (tick s env).events =
      [Event.print "EDGE! recovering...", Event.tankStop]
        ++ reverse (-EDGE_BACKUP_TIME) (-30)
        ++ rotate (-30) 30 EDGE_ROTATE_TIME ∧
    (tick s env).st.state = .SEARCH := by
  constructor <;> simp [tick, hedge, edgeRecoveryEvents, hlr]

/-- Witness for the amended C4, at reflectance (50, 10) from state PUSH. -/
theorem C4_amended_rotation_left_backward_witness :
    edge_detected ⟨50, 10, none, none, 1⟩ = true ∧ (50 : ℚ) > 10 ∧
    ((tick ⟨.PUSH, pid0, some 0⟩ ⟨50, 10, none, none, 1⟩).events =
      [Event.print "EDGE! recovering...", Event.tankStop]
        ++ reverse (-EDGE_BACKUP_TIME) (-30)
        ++ rotate (-30) 30 EDGE_ROTATE_TIME ∧
     (tick ⟨.PUSH, pid0, some 0⟩ ⟨50, 10, none, none, 1⟩).st.state = .SEARCH) := by
  have hedge : edge_detected ⟨50, 10, none, none, 1⟩ = true := by
    norm_num [edge_detected, REFLECT_WHITE_THRESHOLD]
  exact ⟨hedge, by norm_num,
    C4_amended_rotation_left_backward ⟨.PUSH, pid0, some 0⟩ _ hedge (by norm_num)⟩

/-- No event of the edge-recovery trace is a successful CSV row write. -/
theorem edgeRecoveryEvents_all_no_logWrite (env : Env) :
    ((edgeRecoveryEvents env).all fun a => !a.isLogWrite) = true := by
  unfold edgeRecoveryEvents reverse rotate
  split_ifs <;> rfl

/-- No event of the state-dispatch section is a successful CSV row write. -/
theorem stateStep_all_no_logWrite (s : LoopState) (env : Env) :
    (((stateStep s env).events).all fun a => !a.isLogWrite) = true := by
  rcases s with ⟨st, p, ps⟩
  cases st <;> simp only [stateStep] <;> first
  | (split_ifs <;> rfl)
  | rfl

/-- C6 counterexample: a tick on which the edge override fires emits zero
log rows, not exactly one. -/
theorem C6_counterexample :
    (tick ⟨.LOCKON, pid0, none⟩ ⟨45, 0, some 20, some 20, 0⟩).events.countP
      Event.isLogWrite ≠ 1 := by
  norm_num [tick, edge_detected, REFLECT_WHITE_THRESHOLD, edgeRecoveryEvents,
    reverse, rotate, List.countP, List.countP.go, Event.isLogWrite]

/-- C6 amended: no tick writes a log row at all.  Edge-override ticks and
the SEARCH-detection transition skip the logging statement via `continue`,
and every remaining tick raises a `NameError` constructing the timestamp
(line 224, unbound `datetime`) before `log_row` runs. -/
theorem C6_amended_no_tick_emits_log_row (s : LoopState) (env : Env) :
    (tick s env).events.countP Event.isLogWrite = 0 := by
  rw [List.countP_eq_zero]
  intro a ha
  have key : ((tick s env).events.all fun a => !a.isLogWrite) = true := by
    unfold tick
    split
    · exact edgeRecoveryEvents_all_no_logWrite env
    · exact stateStep_all_no_logWrite s env
  have h2 := List.all_eq_true.mp key a ha
  simp only [Bool.not_eq_true'] at h2
  simp [h2]

/-- C7 counterexample: the LOCKON → APPROACH transition (distances 20 and
20, difference 0 below the 2 cm tolerance) does NOT reset the PID: an
integral accumulator of 5 is carried into APPROACH unchanged. -/
theorem C7_counterexample :
    (tick ⟨.LOCKON, { pid0 with intg := 5 }, none⟩
        ⟨5, 5, some 20, some 20, 0⟩).st.state = .APPROACH ∧
    (tick ⟨.LOCKON, { pid0 with intg := 5 }, none⟩
        ⟨5, 5, some 20, some 20, 0⟩).st.pid.intg = 5 ∧
    (5 : ℚ) ≠ 0 := by
  refine ⟨?_, ?_, by norm_num⟩ <;>
    norm_num [tick, stateStep, exitError, edge_detected, REFLECT_WHITE_THRESHOLD, truthy]

/-- C7 amended: the LOCKON → APPROACH transition leaves the PID state
unchanged (no reset), while the PID is reset on entry to SEARCH from each
abort path: the edge override, the APPROACH lost-lock abort, and the PUSH
timeout. -/
theorem C7_amended_pid_reset_on_aborts_only (s : LoopState) (env : Env) :
    (edge_detected env = false → s.state = .LOCKON → truthy env.usL = true →
      truthy env.usR = true → |env.usL.getD 0 - env.usR.getD 0| < 2 →
      (tick s env).st.state = .APPROACH ∧ (tick s env).st.pid = s.pid) ∧
    (edge_detected env = true →
      (tick s env).st.state = .SEARCH ∧ (tick s env).st.pid = s.pid.reset) ∧
    (edge_detected env = false → s.state = .APPROACH →
      (truthy env.usL && truthy env.usR) = false →
      (tick s env).st.state = .SEARCH ∧ (tick s env).st.pid = s.pid.reset) ∧
    (edge_detected env = false → s.state = .PUSH → truthy s.push_start = true →
      env.now - s.push_start.getD 0 > PUSH_MAX_TIME →
      (tick s env).st.state = .SEARCH ∧ (tick s env).st.pid = s.pid.reset) := by
  refine ⟨?_, ?_, ?_, ?_⟩
  · intro hedge hst hl hr hdiff
    simp [tick, hedge, stateStep, hst, hl, hr, hdiff]
  · intro hedge
    simp [tick, hedge]
  · intro hedge hst hlr
    simp [tick, hedge, stateStep, hst, hlr, exitError]
  · intro hedge hst hps htime
    simp [tick, hedge, stateStep, hst, hps, htime, exitError]

/-- Witness for the amended C7: a LOCKON tick with distances 21 and 20
transitions to APPROACH with the PID carried unchanged. -/
theorem C7_amended_pid_reset_on_aborts_only_witness :
    (tick ⟨.LOCKON, pid0, some 3⟩ ⟨5, 5, some 21, some 20, 0⟩).st.state = .APPROACH ∧
    (tick ⟨.LOCKON, pid0, some 3⟩ ⟨5, 5, some 21, some 20, 0⟩).st.pid = pid0 :=
  (C7_amended_pid_reset_on_aborts_only ⟨.LOCKON, pid0, some 3⟩
      ⟨5, 5, some 21, some 20, 0⟩).1
    (by norm_num [edge_detected, REFLECT_WHITE_THRESHOLD]) rfl
    (by norm_num [truthy]) (by norm_num [truthy]) (by norm_num)

/-- C8: every `PID.compute` call uses a strictly positive time step — the
fixed default 1/100 s when no previous timestamp exists, otherwise the
elapsed time floored at 1/1000 s — adds `error × dt` to the integral
accumulator, and, when a nonnegative finite limit is configured, returns a
value in `[-limit, +limit]`. -/
theorem C8_pid_compute_bounded_positive_dt (p : PID) (e now L : ℚ) :
    0 < p.dtOf now ∧
    (p.compute e now).2.intg = p.intg + e * p.dtOf now ∧
    (p.last = none → p.dtOf now = 1/100) ∧
    (∀ l, p.last = some l → p.dtOf now = max (1/1000) (now - l)) ∧
    (p.limit = some L → 0 ≤ L →
      -L ≤ (p.compute e now).1 ∧ (p.compute e now).1 ≤ L) := by
  refine ⟨?_, rfl, ?_, ?_, ?_⟩
  · cases h : p.last with
    | none => norm_num [PID.dtOf, h]
    | some l =>
        have : (0 : ℚ) < 1/1000 := by norm_num
        exact lt_of_lt_of_le this (by simp [PID.dtOf, h, le_max_left])
  · intro h; simp [PID.dtOf, h]
  · intro l h; simp [PID.dtOf, h]
  · intro hlim hL
    simp only [PID.compute, clampOut, hlim]
    split_ifs <;> constructor <;> linarith

/-- Witness for C8, on the configured controller `pid0` (limit 40) with
error 3 at time 1. -/
theorem C8_pid_compute_bounded_positive_dt_witness :
    0 < pid0.dtOf 1 ∧
    (pid0.compute 3 1).2.intg = pid0.intg + 3 * pid0.dtOf 1 ∧
    (-40 ≤ (pid0.compute 3 1).1 ∧ (pid0.compute 3 1).1 ≤ 40) := by
  have h := C8_pid_compute_bounded_positive_dt pid0 3 1 40
  exact ⟨h.1, h.2.1, h.2.2.2.2 rfl (by norm_num)⟩

/-- C9: on any controller, `reset()` followed by `compute(e)` behaves
exactly as a freshly constructed controller with the same gains and limit:
the resulting output and state coincide, and the output is
`kp·e + ki·(e·0.01) + kd·(e − 0)/0.01` clamped to the configured limit. -/
theorem C9_reset_compute_as_fresh (p : PID) (e now : ℚ) :
    p.reset.compute e now = (PID.init p.kp p.ki p.kd p.limit).compute e now ∧
    (p.reset.compute e now).1 =
      clampOut (p.kp * e + p.ki * (e * (1/100)) + p.kd * ((e - 0) / (1/100)))
        p.limit := by
  refine ⟨rfl, ?_⟩
  show clampOut _ p.limit = clampOut _ p.limit
  congr 1
  norm_num [PID.reset, PID.dtOf]

/-- C10: for base in [-100,100] and correction in [-1000,1000] the drive
mixer returns `left = base − correction`, `right = base + correction`, each
independently clamped to [-100,100]; both outputs lie in [-100,100];
`right − left = 2 × correction` when neither side clamps, and a clamped
side saturates at ±100. -/
theorem C10_drive_mixer (base corr : ℚ)
    (hb1 : -100 ≤ base) (hb2 : base ≤ 100)
    (hc1 : -1000 ≤ corr) (hc2 : corr ≤ 1000) :
    (drive base corr).1 = max (-100) (min 100 (base - corr)) ∧
    (drive base corr).2 = max (-100) (min 100 (base + corr)) ∧
    (-100 ≤ (drive base corr).1 ∧ (drive base corr).1 ≤ 100) ∧
    (-100 ≤ (drive base corr).2 ∧ (drive base corr).2 ≤ 100) ∧
    (-100 ≤ base - corr → base - corr ≤ 100 → -100 ≤ base + corr →
      base + corr ≤ 100 →
      (drive base corr).2 - (drive base corr).1 = 2 * corr) ∧
    (100 < base - corr → (drive base corr).1 = 100) ∧
    (base - corr < -100 → (drive base corr).1 = -100) ∧
    (100 < base + corr → (drive base corr).2 = 100) ∧
    (base + corr < -100 → (drive base corr).2 = -100) := by
  have h1 : (drive base corr).1 = max (-100) (min 100 (base - corr)) := rfl
  have h2 : (drive base corr).2 = max (-100) (min 100 (base + corr)) := rfl
  refine ⟨h1, h2, ?_, ?_, ?_, ?_, ?_, ?_, ?_⟩
  · rw [h1]
    exact ⟨le_max_left _ _, max_le (by norm_num) (min_le_left _ _)⟩
  · rw [h2]
    exact ⟨le_max_left _ _, max_le (by norm_num) (min_le_left _ _)⟩
  · intro g1 g2 g3 g4
    rw [h1, h2, min_eq_right g2, max_eq_right g1, min_eq_right g4, max_eq_right g3]
    ring
  · intro h
    rw [h1, min_eq_left (le_of_lt h), max_eq_right (by norm_num : (-100:ℚ) ≤ 100)]
  · intro h
    rw [h1, max_eq_left
      (by linarith [min_le_right (100:ℚ) (base - corr)] : min 100 (base - corr) ≤ -100)]
  · intro h
    rw [h2, min_eq_left (le_of_lt h), max_eq_right (by norm_num : (-100:ℚ) ≤ 100)]
  · intro h
    rw [h2, max_eq_left
      (by linarith [min_le_right (100:ℚ) (base + corr)] : min 100 (base + corr) ≤ -100)]

/-- Witness for C10 at base 50, correction 10: both outputs in range and
the unclamped difference identity. -/
theorem C10_drive_mixer_witness :
    (-100 ≤ (drive 50 10).1 ∧ (drive 50 10).1 ≤ 100) ∧
    (-100 ≤ (drive 50 10).2 ∧ (drive 50 10).2 ≤ 100) ∧
    (drive 50 10).2 - (drive 50 10).1 = 2 * 10 := by
  have h := C10_drive_mixer 50 10 (by norm_num) (by norm_num) (by norm_num) (by norm_num)
  exact ⟨h.2.2.1, h.2.2.2.1,
    h.2.2.2.2.1 (by norm_num) (by norm_num) (by norm_num) (by norm_num)⟩

end SumoEV3
